import Mathlib

/-!
Shallow embedding of `src/model/gpt.py` (classes `GPTPretrain`, `GPTFineTune`
and `GPT`): the parameter / `requires_grad` bookkeeping of the transfer
learning freeze policy, checkpoint save/load with their path-override
semantics, the windowed progress logging of `fit`, the input/label slicing of
`pretrain_step`, and the greedy decoding loop of `predict`.  Tensor payloads
are abstracted to integer parameter values; the autograd `requires_grad` flag
is kept per parameter, and the filesystem is an explicit map from paths to
checkpoint records.
-/

/-- One parameter tensor: an abstract value plus its `requires_grad` flag. -/
structure TensorP where
  value : Int
  requiresGrad : Bool
deriving DecidableEq

/-- Parameters of the `Decoder` module: the transformer-block parameters and
the final output projection `decoder.linear` (referenced at line 283). -/
structure DecoderParams where
  blocks : List TensorP
  linear : List TensorP
deriving DecidableEq

/-- Parameters of `GPTModel` (lines 19-31): `embedding_layer` plus `decoder`. -/
structure GPTModelParams where
  embedding_layer : List TensorP
  decoder : DecoderParams
deriving DecidableEq

/-- Parameters of `GPTFineTune` (lines 175-201): the embedded backbone
`pretrained_model` plus the `classifier` head. -/
structure GPTFineTuneParams where
  pretrained_model : GPTModelParams
  classifier : List TensorP
deriving DecidableEq

/-- The `state_dict` of a `GPTModel`: parameter values only (a PyTorch state dict
carries tensor data, not `requires_grad` flags). -/
structure GPTModelSD where
  embeddingV : List Int
  blocksV : List Int
  linearV : List Int
deriving DecidableEq

/-- The `state_dict` of a `GPTFineTune` model. -/
structure GPTFineTuneSD where
  pretrainedSD : GPTModelSD
  classifierV : List Int
deriving DecidableEq

def tensorValues (ps : List TensorP) : List Int := ps.map TensorP.value

def GPTModelParams.state_dict (m : GPTModelParams) : GPTModelSD :=
  { embeddingV := tensorValues m.embedding_layer
    blocksV := tensorValues m.decoder.blocks
    linearV := tensorValues m.decoder.linear }

def GPTFineTuneParams.state_dict (m : GPTFineTuneParams) : GPTFineTuneSD :=
  { pretrainedSD := m.pretrained_model.state_dict
    classifierV := tensorValues m.classifier }

/-- In-place value copy performed by `load_state_dict` on one parameter list;
strict loading fails on a size mismatch. `requires_grad` flags are kept. -/
def loadValues (ps : List TensorP) (vs : List Int) : Option (List TensorP) :=
  if ps.length = vs.length then
    some (List.zipWith (fun p v => { p with value := v }) ps vs)
  else none

def GPTModelParams.load_state_dict (m : GPTModelParams) (sd : GPTModelSD) :
    Option GPTModelParams := do
  let e ← loadValues m.embedding_layer sd.embeddingV
  let b ← loadValues m.decoder.blocks sd.blocksV
  let l ← loadValues m.decoder.linear sd.linearV
  pure { embedding_layer := e, decoder := { blocks := b, linear := l } }

def GPTFineTuneParams.load_state_dict (m : GPTFineTuneParams) (sd : GPTFineTuneSD) :
    Option GPTFineTuneParams := do
  let pm ← m.pretrained_model.load_state_dict sd.pretrainedSD
  let cl ← loadValues m.classifier sd.classifierV
  pure { pretrained_model := pm, classifier := cl }

/-- The optimizer class handed to a constructor (`optim.Adam`, `optim.SGD`, ...). -/
inductive OptimizerKind where
  | adam
  | sgd
  | other (tag : Nat)
deriving DecidableEq

/-- Checkpoint record written by `GPTPretrain.__save_model` (lines 79-86). -/
structure PretrainCheckpoint where
  model_state_dict : GPTModelSD
  optimizer_state_dict : Int
  epoch : Nat
deriving DecidableEq

/-- Checkpoint record written by `GPT.__save_model` (lines 294-300). -/
structure FineTuneCheckpoint where
  model_state_dict : GPTFineTuneSD
  optimizer_state_dict : Int
  epoch : Nat
deriving DecidableEq

/-- A file on disk is one of the two checkpoint record shapes. -/
inductive CkFile where
  | pre (c : PretrainCheckpoint)
  | fine (c : FineTuneCheckpoint)
deriving DecidableEq

/-- The filesystem: a map from paths to checkpoint files. -/
abbrev FS := String → Option CkFile

def FS.update (fs : FS) (p : String) (c : CkFile) : FS :=
  fun q => if q = p then some c else fs q

def msgSavedPretrain (p : String) : String := "Model Saved at " ++ p
def msgSavedFine (p : String) : String := "Model is saved at " ++ p
def msgCheckpointNotFound : String := "Checkpoint not found"
def msgLoadedPretrained : String := "Loaded Pretrained Model"
def errFileNotFound : String := "FileNotFoundError"
def errLoadNonePath : String := "torch.load received None instead of a path"
def errSizeMismatch : String := "load_state_dict size mismatch"

/-- The mutable state of a `GPTPretrain` trainer. -/
structure PretrainState where
  model : GPTModelParams
  optKind : OptimizerKind
  optState : Int
  epoch : Nat
  checkpoint : Option String
deriving DecidableEq

/-- Method `GPTPretrain.__save_model` (lines 79-86): write the checkpoint triple and
print a message. -/
def GPTPretrain.saveModelInner (st : PretrainState) (fs : FS) (ck : String) :
    FS × List String :=
  (fs.update ck (CkFile.pre
      { model_state_dict := st.model.state_dict
        optimizer_state_dict := st.optState
        epoch := st.epoch }),
   [msgSavedPretrain ck])

/-- Method `GPTPretrain.__load_model` (lines 88-93): if the file exists, restore
model values, optimizer state and epoch; a missing file is skipped silently.
A wrong-shaped checkpoint makes `load_state_dict` raise. -/
def GPTPretrain.loadModelInner (st : PretrainState) (fs : FS) (ck : String) :
    Except String PretrainState :=
  match fs ck with
  | none => Except.ok st
  | some (CkFile.pre c) =>
    match st.model.load_state_dict c.model_state_dict with
    | some m2 =>
      Except.ok { st with model := m2, optState := c.optimizer_state_dict, epoch := c.epoch }
    | none => Except.error errSizeMismatch
  | some (CkFile.fine _) => Except.error errSizeMismatch

/-- Method `GPTPretrain.save_model` (lines 95-102). -/
def GPTPretrain.save_model (st : PretrainState) (fs : FS) (path : Option String) :
    PretrainState × FS × List String :=
  match path with
  | some p =>
    let r := GPTPretrain.saveModelInner st fs p
    ({ st with checkpoint := some p }, r.1, r.2)
  | none =>
    match st.checkpoint with
    | some c =>
      let r := GPTPretrain.saveModelInner st fs c
      (st, r.1, r.2)
    | none => (st, fs, [msgCheckpointNotFound])

/-- Method `GPTPretrain.load_model` (lines 104-111). -/
def GPTPretrain.load_model (st : PretrainState) (fs : FS) (path : Option String) :
    Except String (PretrainState × List String) :=
  match path with
  | some p =>
    (GPTPretrain.loadModelInner st fs p).map (fun s => ({ s with checkpoint := some p }, []))
  | none =>
    match st.checkpoint with
    | some c => (GPTPretrain.loadModelInner st fs c).map (fun s => (s, []))
    | none => Except.ok (st, [msgCheckpointNotFound])

/-- Method `GPTPretrain.__init__` (lines 41-69): the optimizer is built from the
`optimizer` argument; a configured checkpoint is loaded immediately.  The
freshly initialized model is abstracted as the argument `m0`. -/
def GPTPretrain.init (m0 : GPTModelParams) (optimizer : OptimizerKind)
    (checkpoint : Option String) (fs : FS) :
    Except String (PretrainState × List String) :=
  let st : PretrainState :=
    { model := m0, optKind := optimizer, optState := 0, epoch := 0, checkpoint := checkpoint }
  match checkpoint with
  | some c => GPTPretrain.load_model st fs (some c)
  | none => Except.ok (st, [])

/-- The mutable state of a `GPT` trainer (lines 208-243). -/
structure GPTState where
  model : GPTFineTuneParams
  optKind : OptimizerKind
  optState : Int
  epoch : Nat
  checkpoint : Option String
  training : Bool
deriving DecidableEq

def setRequiresGrad (b : Bool) (p : TensorP) : TensorP := { p with requiresGrad := b }

/-- The freeze policy applied in `GPT.__load_model` (lines 281-283) and
`GPT.load_pretrained_model` (lines 313-315): every parameter of
`pretrained_model` gets `requires_grad = False`, then
`decoder.linear.requires_grad_(True)` re-enables the output projection. -/
def GPT.freeze_backbone (m : GPTFineTuneParams) : GPTFineTuneParams :=
  let pm : GPTModelParams :=
    { embedding_layer := m.pretrained_model.embedding_layer.map (setRequiresGrad false)
      decoder :=
        { blocks := m.pretrained_model.decoder.blocks.map (setRequiresGrad false)
          linear := m.pretrained_model.decoder.linear.map (setRequiresGrad false) } }
  { m with
    pretrained_model :=
      { pm with decoder := { pm.decoder with linear := pm.decoder.linear.map (setRequiresGrad true) } } }

/-- Method `GPT.__load_model` (lines 274-284): if the file exists, restore the full
fine-tune state, apply the freeze policy and set `training = True`. -/
def GPT.loadModelInner (st : GPTState) (fs : FS) (path : String) :
    Except String GPTState :=
  match fs path with
  | none => Except.ok st
  | some (CkFile.fine c) =>
    match st.model.load_state_dict c.model_state_dict with
    | some m2 =>
      Except.ok { st with
        model := GPT.freeze_backbone m2
        optState := c.optimizer_state_dict
        epoch := c.epoch
        training := true }
    | none => Except.error errSizeMismatch
  | some (CkFile.pre _) => Except.error errSizeMismatch

/-- Method `GPT.load_model` (lines 287-292): note that when both `path` and the
configured checkpoint are `None`, the method falls through silently. -/
def GPT.load_model (st : GPTState) (fs : FS) (path : Option String) :
    Except String (GPTState × List String) :=
  match path, st.checkpoint with
  | none, some c => (GPT.loadModelInner st fs c).map (fun s => (s, []))
  | some p, _ => (GPT.loadModelInner st fs p).map (fun s => ({ s with checkpoint := some p }, []))
  | none, none => Except.ok (st, [])

/-- Method `GPT.__save_model` (lines 294-300). -/
def GPT.saveModelInner (st : GPTState) (fs : FS) (path : String) :
    FS × List String :=
  (fs.update path (CkFile.fine
      { model_state_dict := st.model.state_dict
        optimizer_state_dict := st.optState
        epoch := st.epoch }),
   [msgSavedFine path])

/-- Method `GPT.save_model` (lines 303-308): silent fall-through when both `path`
and the configured checkpoint are `None`. -/
def GPT.save_model (st : GPTState) (fs : FS) (path : Option String) :
    GPTState × FS × List String :=
  match path, st.checkpoint with
  | none, some c =>
    let r := GPT.saveModelInner st fs c
    (st, r.1, r.2)
  | some p, _ =>
    let r := GPT.saveModelInner st fs p
    ({ st with checkpoint := some p }, r.1, r.2)
  | none, none => (st, fs, [])

/-- Method `GPT.load_pretrained_model` (lines 310-317): `torch.load(path)` with no
existence check (raises on a missing file or a `None` path), backbone-only
`load_state_dict`, then the freeze policy.  The `training` flag is NOT set. -/
def GPT.load_pretrained_model (st : GPTState) (fs : FS) (path : Option String) :
    Except String (GPTState × List String) :=
  match path with
  | none => Except.error errLoadNonePath
  | some p =>
    match fs p with
    | none => Except.error errFileNotFound
    | some (CkFile.pre c) =>
      match st.model.pretrained_model.load_state_dict c.model_state_dict with
      | some pm2 =>
        Except.ok
          ({ st with model := GPT.freeze_backbone { st.model with pretrained_model := pm2 } },
           [msgLoadedPretrained])
      | none => Except.error errSizeMismatch
    | some (CkFile.fine _) => Except.error errSizeMismatch

/-- Method `GPT.__init__` (lines 208-243): the `optimizer` argument is ignored and
`optim.Adam` is always constructed (line 232); a configured checkpoint is
loaded immediately.  The fresh random model is abstracted as `m0`. -/
def GPT.init (m0 : GPTFineTuneParams) (optimizer : OptimizerKind)
    (checkpoint : Option String) (fs : FS) :
    Except String (GPTState × List String) :=
  let st : GPTState :=
    { model := m0, optKind := OptimizerKind.adam, optState := 0, epoch := 0
      checkpoint := checkpoint, training := false }
  match checkpoint with
  | some c => GPT.load_model st fs (some c)
  | none => Except.ok (st, [])

/-- Method `GPT.fit` up to the start of the training loop (lines 320-326): resume
from the configured checkpoint when one is set, then load the pretrained
backbone whenever the `training` flag is still false. -/
def GPT.fit_setup (st : GPTState) (fs : FS) (pretrained_path : Option String) :
    Except String (GPTState × List String) := do
  let r1 ←
    match st.checkpoint with
    | some c => GPT.load_model st fs (some c)
    | none => Except.ok (st, ([] : List String))
  if r1.1.training = false then
    let r2 ← GPT.load_pretrained_model r1.1 fs pretrained_path
    Except.ok (r2.1, r1.2 ++ r2.2)
  else
    Except.ok r1

/-- Row-wise `inputs = data[:, :-1]` from `GPTPretrain.pretrain_step`
(line 126). -/
def GPTPretrain.pretrain_step_inputs (data : List (List Nat)) : List (List Nat) :=
  data.map (fun s => s.dropLast)

/-- Row-wise `labels = data[:, 1:]` from `GPTPretrain.pretrain_step`
(line 127). -/
def GPTPretrain.pretrain_step_labels (data : List (List Nat)) : List (List Nat) :=
  data.map (fun s => s.drop 1)

/-- The greedy decoding loop of `GPT.predict` (lines 360-376).  `step`
abstracts `GPT.__predict_token` (lines 346-354): the deterministic greedy
argmax of the model logits at the last position of the given sequence. -/
def GPT.predict (step : List Nat → Nat) (end_token : Nat) :
    Nat → List Nat → List Nat
  | 0, data => data
  | Nat.succ n, data =>
    let token := step data
    if token = end_token then data
    else GPT.predict step end_token n (data ++ [token])

/-- The sequence the decode loop holds after `k` appends, assuming no early
stop happened before iteration `k`. -/
def GPT.greedy_iter (step : List Nat → Nat) (data : List Nat) : Nat → List Nat
  | 0 => data
  | Nat.succ k => GPT.greedy_iter step data k ++ [step (GPT.greedy_iter step data k)]

/-- The window counters and report count of one `GPTPretrain.fit` epoch. -/
structure FitLogState where
  entropy_loss : Int
  perplexity : Int
  reports : Nat
deriving DecidableEq

/-- The emission condition at line 157 (and line 338):
`index % mini_batch == mini_batch - 1 or index == batches - 1`. -/
def fitLogCond (mini_batch batches index : Nat) : Bool :=
  decide (index % mini_batch = mini_batch - 1 ∨ index = batches - 1)

/-- One body iteration of the logging part of `GPTPretrain.fit`
(lines 154-163): accumulate the step loss and perplexity, then report and
reset both window counters when the condition fires. -/
def GPTPretrain.fit_log_step (mini_batch batches : Nat) (loss perp : Nat → Int)
    (s : FitLogState) (index : Nat) : FitLogState :=
  let s1 : FitLogState :=
    { s with
      entropy_loss := s.entropy_loss + loss index
      perplexity := s.perplexity + perp index }
  if fitLogCond mini_batch batches index then
    { entropy_loss := 0, perplexity := 0, reports := s1.reports + 1 }
  else s1

/-- The logging behaviour of one `GPTPretrain.fit` epoch over `batches`
batches with per-batch contributions `loss` and `perp`. -/
def GPTPretrain.fit_epoch_log (mini_batch batches : Nat) (loss perp : Nat → Int) :
    FitLogState :=
  (List.range batches).foldl (GPTPretrain.fit_log_step mini_batch batches loss perp)
    { entropy_loss := 0, perplexity := 0, reports := 0 }

/-- The window counter and report count of one `GPT.fit` epoch (`GPT.fit`
keeps only a running entropy loss). -/
structure GPTLogState where
  entropy_loss : Int
  reports : Nat
deriving DecidableEq

/-- One body iteration of the logging part of `GPT.fit` (lines 331-340). -/
def GPT.fit_log_step (mini_batch batches : Nat) (loss : Nat → Int)
    (s : GPTLogState) (index : Nat) : GPTLogState :=
  let s1 : GPTLogState := { s with entropy_loss := s.entropy_loss + loss index }
  if fitLogCond mini_batch batches index then
    { entropy_loss := 0, reports := s1.reports + 1 }
  else s1

/-- The logging behaviour of one `GPT.fit` epoch. -/
def GPT.fit_epoch_log (mini_batch batches : Nat) (loss : Nat → Int) : GPTLogState :=
  (List.range batches).foldl (GPT.fit_log_step mini_batch batches loss)
    { entropy_loss := 0, reports := 0 }

/-- Two backbones have the same parameter topology. -/
def GPTModelParams.same_shape (a b : GPTModelParams) : Prop :=
  a.embedding_layer.length = b.embedding_layer.length ∧
  a.decoder.blocks.length = b.decoder.blocks.length ∧
  a.decoder.linear.length = b.decoder.linear.length

/-- Two fine-tune models have the same parameter topology. -/
def GPTFineTuneParams.same_shape (a b : GPTFineTuneParams) : Prop :=
  a.pretrained_model.same_shape b.pretrained_model ∧
  a.classifier.length = b.classifier.length

/-- The gradient-tracking pattern asserted of a post-load state: backbone
frozen except `decoder.linear`, classifier flags untouched by the freeze. -/
def freezePattern (after before : GPTState) : Prop :=
  (∀ q ∈ after.model.pretrained_model.embedding_layer, q.requiresGrad = false) ∧
  (∀ q ∈ after.model.pretrained_model.decoder.blocks, q.requiresGrad = false) ∧
  (∀ q ∈ after.model.pretrained_model.decoder.linear, q.requiresGrad = true) ∧
  after.model.classifier.map TensorP.requiresGrad =
    before.model.classifier.map TensorP.requiresGrad

/-- A single trainable parameter used to build small concrete instances. -/
def tOne : TensorP := { value := 0, requiresGrad := true }

def pmdl0 : GPTModelParams :=
  { embedding_layer := [tOne], decoder := { blocks := [tOne], linear := [tOne] } }

def mdl0 : GPTFineTuneParams := { pretrained_model := pmdl0, classifier := [tOne] }

def preName : String := "pre.ckpt"
def fineName : String := "fine.ckpt"
def missingName : String := "missing.ckpt"

def pck0 : PretrainCheckpoint :=
  { model_state_dict := { embeddingV := [5], blocksV := [6], linearV := [7] }
    optimizer_state_dict := 3
    epoch := 2 }

def fs0 : FS := fun q => if q = preName then some (CkFile.pre pck0) else none

def fsEmpty : FS := fun _ => none

def st0 : GPTState :=
  { model := mdl0, optKind := OptimizerKind.adam, optState := 0, epoch := 0
    checkpoint := none, training := false }

def pst0 : PretrainState :=
  { model := pmdl0, optKind := OptimizerKind.sgd, optState := 0, epoch := 0
    checkpoint := none }

/-- A state with a configured checkpoint path, for concrete instantiations. -/
def gstCk : GPTState := { st0 with checkpoint := some fineName }

/-- A pretrain trainer with a configured checkpoint path. -/
def pstCk : PretrainState := { pst0 with checkpoint := some fineName }

/-- A concrete greedy-argmax oracle used to instantiate `GPT.predict`. -/
def stepW : List Nat → Nat := fun l => l.length

/-- The state produced by `GPT.load_pretrained_model` on `st0` and `fs0`. -/
def stAfterPre : GPTState :=
  { model :=
      { pretrained_model :=
          { embedding_layer := [{ value := 5, requiresGrad := false }]
            decoder :=
              { blocks := [{ value := 6, requiresGrad := false }]
                linear := [{ value := 7, requiresGrad := true }] } }
        classifier := [tOne] }
    optKind := OptimizerKind.adam, optState := 0, epoch := 0
    checkpoint := none, training := false }

theorem loadValues_eq (ps : List TensorP) (vs : List Int) (h : ps.length = vs.length) :
    loadValues ps vs = some (List.zipWith (fun p v => { p with value := v }) ps vs) := by
  simp [loadValues, h]

theorem loadValues_some {ps : List TensorP} {vs : List Int} {qs : List TensorP}
    (h : loadValues ps vs = some qs) :
    ps.length = vs.length ∧
      qs = List.zipWith (fun p v => { p with value := v }) ps vs := by
  unfold loadValues at h
  split at h
  · exact ⟨by assumption, (Option.some.inj h).symm⟩
  · exact absurd h (by simp)

theorem zipSet_value (ps : List TensorP) :
    ∀ vs : List Int, ps.length = vs.length →
      (List.zipWith (fun p v => { p with value := v }) ps vs).map TensorP.value = vs := by
  induction ps with
  | nil =>
    intro vs h
    cases vs with
    | nil => rfl
    | cons v vs => simp at h
  | cons p ps ih =>
    intro vs h
    cases vs with
    | nil => simp at h
    | cons v vs => simp [ih vs (by simpa using h)]

theorem zipSet_grad (ps : List TensorP) :
    ∀ vs : List Int, ps.length = vs.length →
      (List.zipWith (fun p v => { p with value := v }) ps vs).map TensorP.requiresGrad =
        ps.map TensorP.requiresGrad := by
  induction ps with
  | nil => intro vs _; simp
  | cons p ps ih =>
    intro vs h
    cases vs with
    | nil => simp at h
    | cons v vs => simp [ih vs (by simpa using h)]

theorem mem_map_setGrad {l : List TensorP} {b : Bool} {q : TensorP}
    (hq : q ∈ l.map (setRequiresGrad b)) : q.requiresGrad = b := by
  obtain ⟨p, _, rfl⟩ := List.mem_map.mp hq
  rfl

theorem map_value_setGrad (b : Bool) (l : List TensorP) :
    (l.map (setRequiresGrad b)).map TensorP.value = l.map TensorP.value := by
  rw [List.map_map]
  exact List.map_congr_left (fun a _ => rfl)

theorem freeze_backbone_state_dict (m : GPTFineTuneParams) :
    (GPT.freeze_backbone m).state_dict = m.state_dict := by
  have h1 := map_value_setGrad false m.pretrained_model.embedding_layer
  have h2 := map_value_setGrad false m.pretrained_model.decoder.blocks
  have h3 := map_value_setGrad true (m.pretrained_model.decoder.linear.map (setRequiresGrad false))
  have h4 := map_value_setGrad false m.pretrained_model.decoder.linear
  simp only [GPT.freeze_backbone, GPTFineTuneParams.state_dict, GPTModelParams.state_dict,
    tensorValues]
  rw [h1, h2, h3, h4]

theorem FS.update_self (fs : FS) (p : String) (c : CkFile) : fs.update p c p = some c := by
  simp [FS.update]

/-- C3: `pretrain_step` slices inputs as positions `0..L-2` and labels as
positions `1..L-1` of each row; both have length `L-1` and
`labels[t] = row[t+1]`. -/
theorem spec_C3 (data : List (List Nat)) (L i : Nat) (s : List Nat)
    (hL : 2 ≤ L) (hall : ∀ r ∈ data, r.length = L) (hi : data[i]? = some s) :
    ∃ inp lab,
      (GPTPretrain.pretrain_step_inputs data)[i]? = some inp ∧
      (GPTPretrain.pretrain_step_labels data)[i]? = some lab ∧
      inp.length = L - 1 ∧ lab.length = L - 1 ∧
      (∀ t, t < L - 1 → inp[t]? = s[t]?) ∧
      (∀ t, t < L - 1 → lab[t]? = s[t + 1]?) := by
  have hmem : s ∈ data := by
    obtain ⟨hlt, hget⟩ := List.getElem?_eq_some.mp hi
    exact hget ▸ List.getElem_mem hlt
  have hs : s.length = L := hall s hmem
  refine ⟨s.dropLast, s.drop 1, ?_, ?_, ?_, ?_, ?_, ?_⟩
  · simp [GPTPretrain.pretrain_step_inputs, List.getElem?_map, hi]
  · simp [GPTPretrain.pretrain_step_labels, List.getElem?_map, hi]
  · simp [hs]
  · simp [hs]
  · intro t ht
    rw [List.dropLast_eq_take, List.getElem?_take, hs, if_pos ht]
  · intro t ht
    rw [List.getElem?_drop, Nat.add_comm]

/-- Witness for C3 at a concrete 2x3 batch. -/
theorem spec_C3_witness :
    (2 ≤ 3 ∧ (∀ r ∈ ([[1, 2, 3], [4, 5, 6]] : List (List Nat)), r.length = 3) ∧
      ([[1, 2, 3], [4, 5, 6]] : List (List Nat))[0]? = some [1, 2, 3]) ∧
    ∃ inp lab,
      (GPTPretrain.pretrain_step_inputs [[1, 2, 3], [4, 5, 6]])[0]? = some inp ∧
      (GPTPretrain.pretrain_step_labels [[1, 2, 3], [4, 5, 6]])[0]? = some lab ∧
      inp.length = 3 - 1 ∧ lab.length = 3 - 1 ∧
      (∀ t, t < 3 - 1 → inp[t]? = ([1, 2, 3] : List Nat)[t]?) ∧
      (∀ t, t < 3 - 1 → lab[t]? = ([1, 2, 3] : List Nat)[t + 1]?) :=
  ⟨⟨by decide, by decide, by decide⟩,
   spec_C3 [[1, 2, 3], [4, 5, 6]] 3 0 [1, 2, 3] (by decide) (by decide) (by decide)⟩

theorem predict_length_le (step : List Nat → Nat) (e : Nat) :
    ∀ (N : Nat) (data : List Nat), (GPT.predict step e N data).length ≤ data.length + N := by
  intro N
  induction N with
  | zero => intro data; simp [GPT.predict]
  | succ n ih =>
    intro data
    have hdef : GPT.predict step e (n + 1) data =
        if step data = e then data else GPT.predict step e n (data ++ [step data]) := rfl
    rw [hdef]
    by_cases h : step data = e
    · rw [if_pos h]; omega
    · rw [if_neg h]
      have hh := ih (data ++ [step data])
      simp only [List.length_append, List.length_cons, List.length_nil] at hh
      omega

theorem predict_extends (step : List Nat → Nat) (e : Nat) :
    ∀ (N : Nat) (data : List Nat), ∃ t, GPT.predict step e N data = data ++ t := by
  intro N
  induction N with
  | zero => intro data; exact ⟨[], by simp [GPT.predict]⟩
  | succ n ih =>
    intro data
    have hdef : GPT.predict step e (n + 1) data =
        if step data = e then data else GPT.predict step e n (data ++ [step data]) := rfl
    by_cases h : step data = e
    · exact ⟨[], by rw [hdef, if_pos h]; simp⟩
    · obtain ⟨t, ht⟩ := ih (data ++ [step data])
      exact ⟨step data :: t, by rw [hdef, if_neg h, ht]; simp⟩

theorem greedy_iter_shift (step : List Nat → Nat) (data : List Nat) :
    ∀ k, GPT.greedy_iter step data (k + 1) = GPT.greedy_iter step (data ++ [step data]) k := by
  intro k
  induction k with
  | zero => rfl
  | succ k ih =>
    have h1 : GPT.greedy_iter step data (k + 2) =
        GPT.greedy_iter step data (k + 1) ++ [step (GPT.greedy_iter step data (k + 1))] := rfl
    have h2 : GPT.greedy_iter step (data ++ [step data]) (k + 1) =
        GPT.greedy_iter step (data ++ [step data]) k ++
          [step (GPT.greedy_iter step (data ++ [step data]) k)] := rfl
    rw [h1, h2, ih]

theorem greedy_iter_length (step : List Nat → Nat) (data : List Nat) :
    ∀ k, (GPT.greedy_iter step data k).length = data.length + k := by
  intro k
  induction k with
  | zero => rfl
  | succ k ih =>
    have h1 : GPT.greedy_iter step data (k + 1) =
        GPT.greedy_iter step data k ++ [step (GPT.greedy_iter step data k)] := rfl
    rw [h1]
    simp only [List.length_append, List.length_cons, List.length_nil, ih]
    omega

theorem predict_early (step : List Nat → Nat) (e : Nat) :
    ∀ (k N : Nat) (data : List Nat), k < N →
      (∀ j, j < k → step (GPT.greedy_iter step data j) ≠ e) →
      step (GPT.greedy_iter step data k) = e →
      GPT.predict step e N data = GPT.greedy_iter step data k := by
  intro k
  induction k with
  | zero =>
    intro N data hN _ hk
    cases N with
    | zero => omega
    | succ n =>
      have hk2 : step data = e := hk
      have hdef : GPT.predict step e (n + 1) data =
          if step data = e then data else GPT.predict step e n (data ++ [step data]) := rfl
      rw [hdef, if_pos hk2]
      rfl
  | succ k ih =>
    intro N data hN hj hk
    cases N with
    | zero => omega
    | succ n =>
      have h0 : step data ≠ e := hj 0 (Nat.succ_pos k)
      have hdef : GPT.predict step e (n + 1) data =
          if step data = e then data else GPT.predict step e n (data ++ [step data]) := rfl
      rw [hdef, if_neg h0]
      have hres := ih n (data ++ [step data]) (by omega)
        (fun j hjk => by
          have hh := hj (j + 1) (by omega)
          rw [greedy_iter_shift] at hh
          exact hh)
        (by
          have hh := hk
          rw [greedy_iter_shift] at hh
          exact hh)
      rw [hres, ← greedy_iter_shift]

/-- C2: `predict` terminates with at most `limit_tokens` appended tokens, the
result extends the prompt, and a first `end_token` hit at iteration `k < N`
yields exactly the prompt plus `k` tokens, the end token itself excluded. -/
theorem spec_C2 (step : List Nat → Nat) (end_token N : Nat) (data : List Nat) :
    (GPT.predict step end_token N data).length ≤ data.length + N ∧
    (∃ t, GPT.predict step end_token N data = data ++ t) ∧
    (∀ k, k < N →
      (∀ j, j < k → step (GPT.greedy_iter step data j) ≠ end_token) →
      step (GPT.greedy_iter step data k) = end_token →
      GPT.predict step end_token N data = GPT.greedy_iter step data k ∧
      (GPT.predict step end_token N data).length = data.length + k) := by
  refine ⟨predict_length_le step end_token N data, predict_extends step end_token N data, ?_⟩
  intro k hk hj hkk
  have h := predict_early step end_token k N data hk hj hkk
  exact ⟨h, by rw [h]; exact greedy_iter_length step data k⟩

/-- Witness for C2: the oracle emits the end token on the first iteration. -/
theorem spec_C2_witness :
    (0 < 5 ∧ stepW (GPT.greedy_iter stepW [0, 0] 0) = 2) ∧
    (GPT.predict stepW 2 5 [0, 0] = GPT.greedy_iter stepW [0, 0] 0 ∧
     (GPT.predict stepW 2 5 [0, 0]).length = ([0, 0] : List Nat).length + 0) :=
  ⟨⟨by decide, by decide⟩,
   (spec_C2 stepW 2 5 [0, 0]).2.2 0 (by decide)
     (fun j hj => absurd hj (Nat.not_lt_zero j)) (by decide)⟩

theorem countP_congr_mem {p q : Nat → Bool} :
    ∀ l : List Nat, (∀ a ∈ l, p a = q a) → l.countP p = l.countP q := by
  intro l
  induction l with
  | nil => intro _; rfl
  | cons a l ih =>
    intro h
    rw [List.countP_cons, List.countP_cons,
      ih (fun b hb => h b (List.mem_cons_of_mem a hb)), h a (List.mem_cons_self a l)]

theorem mod_pred_iff_dvd (M n : Nat) (hM : 1 ≤ M) : M ∣ (n + 1) ↔ n % M = M - 1 := by
  rcases Nat.lt_or_ge M 2 with h2 | h2
  · have hM1 : M = 1 := by omega
    subst hM1
    simp [Nat.mod_one]
  · rw [Nat.dvd_iff_mod_eq_zero, Nat.add_mod,
      Nat.mod_eq_of_lt (show (1 : Nat) < M by omega)]
    have hr : n % M < M := Nat.mod_lt n (by omega)
    constructor
    · intro h0
      by_contra hne
      have hlt : n % M + 1 < M := by omega
      rw [Nat.mod_eq_of_lt hlt] at h0
      omega
    · intro hEq
      have hs : n % M + 1 = M := by omega
      rw [hs, Nat.mod_self]

theorem countP_range_mod (M : Nat) (hM : 1 ≤ M) :
    ∀ T, (List.range T).countP (fun i => decide (i % M = M - 1)) = T / M := by
  intro T
  induction T with
  | zero => simp
  | succ T ih =>
    rw [List.range_succ, List.countP_append, ih, Nat.succ_div]
    have hone : (List.countP (fun i => decide (i % M = M - 1)) [T]) =
        if M ∣ T + 1 then 1 else 0 := by
      simp only [List.countP_cons, List.countP_nil]
      by_cases h : T % M = M - 1
      · rw [if_pos ((mod_pred_iff_dvd M T hM).mpr h)]
        simp [h]
      · rw [if_neg (fun hd => h ((mod_pred_iff_dvd M T hM).mp hd))]
        simp [h]
    rw [hone]

theorem fit_log_foldl_reports (M T : Nat) (lo pe : Nat → Int) :
    ∀ (l : List Nat) (s : FitLogState),
      (l.foldl (GPTPretrain.fit_log_step M T lo pe) s).reports =
        s.reports + l.countP (fitLogCond M T) := by
  intro l
  induction l with
  | nil => intro s; simp
  | cons a l ih =>
    intro s
    rw [List.foldl_cons, ih, List.countP_cons]
    by_cases h : fitLogCond M T a = true
    · have hstep : (GPTPretrain.fit_log_step M T lo pe s a).reports = s.reports + 1 := by
        simp [GPTPretrain.fit_log_step, h]
      rw [hstep, if_pos h]
      omega
    · have hstep : (GPTPretrain.fit_log_step M T lo pe s a).reports = s.reports := by
        simp [GPTPretrain.fit_log_step, h]
      rw [hstep, if_neg h]
      omega

theorem gpt_log_foldl_reports (M T : Nat) (lo : Nat → Int) :
    ∀ (l : List Nat) (s : GPTLogState),
      (l.foldl (GPT.fit_log_step M T lo) s).reports =
        s.reports + l.countP (fitLogCond M T) := by
  intro l
  induction l with
  | nil => intro s; simp
  | cons a l ih =>
    intro s
    rw [List.foldl_cons, ih, List.countP_cons]
    by_cases h : fitLogCond M T a = true
    · have hstep : (GPT.fit_log_step M T lo s a).reports = s.reports + 1 := by
        simp [GPT.fit_log_step, h]
      rw [hstep, if_pos h]
      omega
    · have hstep : (GPT.fit_log_step M T lo s a).reports = s.reports := by
        simp [GPT.fit_log_step, h]
      rw [hstep, if_neg h]
      omega

theorem countP_range_cond (M : Nat) (hM : 1 ≤ M) :
    ∀ T, (List.range T).countP (fitLogCond M T) = (T + M - 1) / M := by
  intro T
  cases T with
  | zero =>
    have h0 : (0 + M - 1) / M = 0 := by
      rw [Nat.zero_add]
      exact Nat.div_eq_of_lt (by omega)
    simp only [List.range_zero, List.countP_nil]
    exact h0.symm
  | succ T0 =>
    rw [List.range_succ, List.countP_append]
    have hlast : List.countP (fitLogCond M (T0 + 1)) [T0] = 1 := by
      simp [fitLogCond]
    have hmain : (List.range T0).countP (fitLogCond M (T0 + 1)) =
        (List.range T0).countP (fun i => decide (i % M = M - 1)) := by
      apply countP_congr_mem
      intro a ha
      have hlt : a < T0 := List.mem_range.mp ha
      have hne : a ≠ T0 + 1 - 1 := by omega
      unfold fitLogCond
      rw [decide_eq_decide]
      constructor
      · rintro (h | h)
        · exact h
        · exact absurd h hne
      · intro h
        exact Or.inl h
    rw [hmain, countP_range_mod M hM T0, hlast]
    have harith : T0 + 1 + M - 1 = T0 + M := by omega
    rw [harith, Nat.add_div_right T0 (by omega)]

/-- C9: each epoch of `GPTPretrain.fit` (and likewise `GPT.fit`) emits exactly
`ceil(T / M)` progress reports, and every report resets the window counters
to zero. -/
theorem spec_C9 (M T : Nat) (lo pe gl : Nat → Int) (hM : 1 ≤ M) :
    (GPTPretrain.fit_epoch_log M T lo pe).reports = (T + M - 1) / M ∧
    (GPT.fit_epoch_log M T gl).reports = (T + M - 1) / M ∧
    (∀ s i, fitLogCond M T i = true →
      (GPTPretrain.fit_log_step M T lo pe s i).entropy_loss = 0 ∧
      (GPTPretrain.fit_log_step M T lo pe s i).perplexity = 0) ∧
    (∀ s i, fitLogCond M T i = true →
      (GPT.fit_log_step M T gl s i).entropy_loss = 0) := by
  refine ⟨?_, ?_, ?_, ?_⟩
  · rw [GPTPretrain.fit_epoch_log, fit_log_foldl_reports, countP_range_cond M hM T]
    simp
  · rw [GPT.fit_epoch_log, gpt_log_foldl_reports, countP_range_cond M hM T]
    simp
  · intro s i h
    constructor <;> simp [GPTPretrain.fit_log_step, h]
  · intro s i h
    simp [GPT.fit_log_step, h]

/-- Witness for C9 at `mini_batch = 2`, `T = 5`: `ceil(5 / 2) = 3` reports. -/
theorem spec_C9_witness :
    1 ≤ 2 ∧
    (GPTPretrain.fit_epoch_log 2 5 (fun _ => 1) (fun _ => 1)).reports = (5 + 2 - 1) / 2 :=
  ⟨by decide, (spec_C9 2 5 (fun _ => 1) (fun _ => 1) (fun _ => 1) (by decide)).1⟩

theorem except_map_ok {α β γ : Type} {f : α → β} {e : Except γ α} {b : β}
    (h : e.map f = Except.ok b) : ∃ a, e = Except.ok a ∧ f a = b := by
  cases e with
  | error c => simp [Except.map] at h
  | ok a => exact ⟨a, rfl, by simpa [Except.map] using h⟩

theorem load_state_dict_model_exists (m : GPTModelParams) (sd : GPTModelSD)
    (h1 : m.embedding_layer.length = sd.embeddingV.length)
    (h2 : m.decoder.blocks.length = sd.blocksV.length)
    (h3 : m.decoder.linear.length = sd.linearV.length) :
    ∃ m2, m.load_state_dict sd = some m2 ∧ m2.state_dict = sd := by
  refine ⟨{ embedding_layer :=
              List.zipWith (fun p v => { p with value := v }) m.embedding_layer sd.embeddingV
            decoder :=
              { blocks :=
                  List.zipWith (fun p v => { p with value := v }) m.decoder.blocks sd.blocksV
                linear :=
                  List.zipWith (fun p v => { p with value := v }) m.decoder.linear sd.linearV } },
    ?_, ?_⟩
  · simp [GPTModelParams.load_state_dict, loadValues_eq _ _ h1, loadValues_eq _ _ h2,
      loadValues_eq _ _ h3]
  · simp [GPTModelParams.state_dict, tensorValues, zipSet_value _ _ h1, zipSet_value _ _ h2,
      zipSet_value _ _ h3]

theorem load_state_dict_fine_exists (m : GPTFineTuneParams) (sd : GPTFineTuneSD)
    (h1 : m.pretrained_model.embedding_layer.length = sd.pretrainedSD.embeddingV.length)
    (h2 : m.pretrained_model.decoder.blocks.length = sd.pretrainedSD.blocksV.length)
    (h3 : m.pretrained_model.decoder.linear.length = sd.pretrainedSD.linearV.length)
    (h4 : m.classifier.length = sd.classifierV.length) :
    ∃ m2, m.load_state_dict sd = some m2 ∧ m2.state_dict = sd := by
  obtain ⟨pm2, hpm, hpmsd⟩ :=
    load_state_dict_model_exists m.pretrained_model sd.pretrainedSD h1 h2 h3
  refine ⟨{ pretrained_model := pm2
            classifier :=
              List.zipWith (fun p v => { p with value := v }) m.classifier sd.classifierV },
    ?_, ?_⟩
  · simp [GPTFineTuneParams.load_state_dict, hpm, loadValues_eq _ _ h4]
  · simp [GPTFineTuneParams.state_dict, hpmsd, tensorValues, zipSet_value _ _ h4]

theorem load_state_dict_fine_flags {m m2 : GPTFineTuneParams} {sd : GPTFineTuneSD}
    (h : m.load_state_dict sd = some m2) :
    m2.classifier.map TensorP.requiresGrad = m.classifier.map TensorP.requiresGrad := by
  unfold GPTFineTuneParams.load_state_dict at h
  cases hpm : m.pretrained_model.load_state_dict sd.pretrainedSD with
  | none => rw [hpm] at h; simp at h
  | some pm2 =>
    rw [hpm] at h
    cases hcl : loadValues m.classifier sd.classifierV with
    | none => rw [hcl] at h; simp at h
    | some cl =>
      rw [hcl] at h
      obtain ⟨hlen, hz⟩ := loadValues_some hcl
      have hrec := Option.some.inj (by simpa using h)
      rw [← hrec, hz]
      exact zipSet_grad _ _ hlen

theorem gpt_loadInner_fields {st st2 : GPTState} {fs : FS} {p : String}
    (h : GPT.loadModelInner st fs p = Except.ok st2) :
    st2.optKind = st.optKind := by
  unfold GPT.loadModelInner at h
  split at h
  · cases Except.ok.inj h
    rfl
  · split at h
    · cases Except.ok.inj h
      rfl
    · exact absurd h (by simp)
  · exact absurd h (by simp)

theorem gpt_load_model_optKind {st : GPTState} {fs : FS} {p : Option String}
    {st2 : GPTState} {ms : List String}
    (h : GPT.load_model st fs p = Except.ok (st2, ms)) : st2.optKind = st.optKind := by
  unfold GPT.load_model at h
  split at h
  · obtain ⟨s, hs, hpair⟩ := except_map_ok h
    cases hpair
    exact gpt_loadInner_fields hs
  · obtain ⟨s, hs, hpair⟩ := except_map_ok h
    cases hpair
    have hk := gpt_loadInner_fields hs
    exact hk
  · cases Except.ok.inj h
    rfl

theorem pretrain_loadInner_fields {st st2 : PretrainState} {fs : FS} {p : String}
    (h : GPTPretrain.loadModelInner st fs p = Except.ok st2) :
    st2.optKind = st.optKind := by
  unfold GPTPretrain.loadModelInner at h
  split at h
  · cases Except.ok.inj h
    rfl
  · split at h
    · cases Except.ok.inj h
      rfl
    · exact absurd h (by simp)
  · exact absurd h (by simp)

theorem pretrain_load_model_optKind {st : PretrainState} {fs : FS} {p : Option String}
    {st2 : PretrainState} {ms : List String}
    (h : GPTPretrain.load_model st fs p = Except.ok (st2, ms)) : st2.optKind = st.optKind := by
  unfold GPTPretrain.load_model at h
  split at h
  · obtain ⟨s, hs, hpair⟩ := except_map_ok h
    cases hpair
    have hk := pretrain_loadInner_fields hs
    exact hk
  · split at h
    · obtain ⟨s, hs, hpair⟩ := except_map_ok h
      cases hpair
      exact pretrain_loadInner_fields hs
    · cases Except.ok.inj h
      rfl

/-- C1: both backbone-loading entry points (`load_pretrained_model`, and
`load_model` on an existing full checkpoint) leave every backbone parameter
with gradient tracking disabled except `decoder.linear`, which is trainable;
the classifier head `requires_grad` flags are untouched by the freeze. -/
theorem spec_C1 (st : GPTState) (fs : FS) (p : String) :
    (∀ st2 ms, GPT.load_pretrained_model st fs (some p) = Except.ok (st2, ms) →
      freezePattern st2 st) ∧
    (∀ c st2 ms, fs p = some (CkFile.fine c) →
      GPT.load_model st fs (some p) = Except.ok (st2, ms) → freezePattern st2 st) := by
  constructor
  · intro st2 ms h
    unfold GPT.load_pretrained_model at h
    dsimp only at h
    cases hfs : fs p with
    | none => rw [hfs] at h; exact absurd h (by simp)
    | some ck =>
      rw [hfs] at h
      cases ck with
      | fine c => dsimp only at h; exact absurd h (by simp)
      | pre c =>
        dsimp only at h
        cases hld : st.model.pretrained_model.load_state_dict c.model_state_dict with
        | none => rw [hld] at h; exact absurd h (by simp)
        | some pm2 =>
          rw [hld] at h
          dsimp only at h
          cases Except.ok.inj h
          refine ⟨?_, ?_, ?_, rfl⟩ <;> intro q hq <;> exact mem_map_setGrad hq
  · intro c st2 ms hfs h
    unfold GPT.load_model at h
    dsimp only at h
    obtain ⟨s, hs, hpair⟩ := except_map_ok h
    cases hpair
    unfold GPT.loadModelInner at hs
    rw [hfs] at hs
    dsimp only at hs
    cases hld : st.model.load_state_dict c.model_state_dict with
    | none => rw [hld] at hs; exact absurd hs (by simp)
    | some m2 =>
      rw [hld] at hs
      dsimp only at hs
      cases Except.ok.inj hs
      refine ⟨?_, ?_, ?_, ?_⟩
      · intro q hq; exact mem_map_setGrad hq
      · intro q hq; exact mem_map_setGrad hq
      · intro q hq; exact mem_map_setGrad hq
      · have hf := load_state_dict_fine_flags hld
        exact hf

/-- Witness for C1: loading the concrete pretrain checkpoint `fs0` holds at
`pre.ckpt` freezes the backbone of `st0` except the decoder projection. -/
theorem spec_C1_witness :
    GPT.load_pretrained_model st0 fs0 (some preName) =
      Except.ok (stAfterPre, [msgLoadedPretrained]) ∧
    freezePattern stAfterPre st0 :=
  ⟨rfl,
   (spec_C1 st0 fs0 preName).1 stAfterPre [msgLoadedPretrained] rfl⟩

/-- C10: `GPT.__init__` ignores its `optimizer` argument and always builds
Adam, while `GPTPretrain.__init__` constructs the optimizer class it is
given. -/
theorem spec_C10 :
    (∀ (m0 : GPTFineTuneParams) (opt : OptimizerKind) (ck : Option String) (fs : FS)
        (r : GPTState × List String),
      GPT.init m0 opt ck fs = Except.ok r → r.1.optKind = OptimizerKind.adam) ∧
    (∀ (m0 : GPTModelParams) (opt : OptimizerKind) (ck : Option String) (fs : FS)
        (r : PretrainState × List String),
      GPTPretrain.init m0 opt ck fs = Except.ok r → r.1.optKind = opt) := by
  constructor
  · intro m0 opt ck fs r h
    cases ck with
    | none =>
      unfold GPT.init at h
      cases Except.ok.inj h
      rfl
    | some c =>
      unfold GPT.init at h
      exact gpt_load_model_optKind h
  · intro m0 opt ck fs r h
    cases ck with
    | none =>
      unfold GPTPretrain.init at h
      cases Except.ok.inj h
      rfl
    | some c =>
      unfold GPTPretrain.init at h
      exact pretrain_load_model_optKind h

/-- Witness for C10: constructing either trainer with `optim.SGD`. -/
theorem spec_C10_witness :
    st0.optKind = OptimizerKind.adam ∧ pst0.optKind = OptimizerKind.sgd :=
  ⟨spec_C10.1 mdl0 OptimizerKind.sgd none fsEmpty (st0, []) rfl,
   spec_C10.2 pmdl0 OptimizerKind.sgd none fsEmpty (pst0, []) rfl⟩

/-- C4: saving a checkpoint and loading it back (into a trainer of identical
parameter topology) restores the model values, the optimizer state and the
epoch counter, for both `GPTPretrain` and `GPT`. -/
theorem spec_C4 (pst pst2 : PretrainState) (gst gst2 : GPTState) (fs : FS) (p : String)
    (hpre : pst2.model.same_shape pst.model)
    (hfine : gst2.model.same_shape gst.model) :
    (∃ st3, GPTPretrain.load_model pst2
        ((GPTPretrain.save_model pst fs (some p)).2.1) (some p) = Except.ok (st3, []) ∧
      st3.model.state_dict = pst.model.state_dict ∧
      st3.optState = pst.optState ∧ st3.epoch = pst.epoch) ∧
    (∃ st3, GPT.load_model gst2
        ((GPT.save_model gst fs (some p)).2.1) (some p) = Except.ok (st3, []) ∧
      st3.model.state_dict = gst.model.state_dict ∧
      st3.optState = gst.optState ∧ st3.epoch = gst.epoch) := by
  constructor
  · obtain ⟨h1, h2, h3⟩ := hpre
    have hs1 : pst2.model.embedding_layer.length = (pst.model.state_dict).embeddingV.length := by
      simp [GPTModelParams.state_dict, tensorValues, h1]
    have hs2 : pst2.model.decoder.blocks.length = (pst.model.state_dict).blocksV.length := by
      simp [GPTModelParams.state_dict, tensorValues, h2]
    have hs3 : pst2.model.decoder.linear.length = (pst.model.state_dict).linearV.length := by
      simp [GPTModelParams.state_dict, tensorValues, h3]
    obtain ⟨m2, hld, hsd⟩ :=
      load_state_dict_model_exists pst2.model pst.model.state_dict hs1 hs2 hs3
    refine Exists.intro
      { pst2 with
        model := m2
        optState := pst.optState
        epoch := pst.epoch
        checkpoint := some p }
      ⟨?_, hsd, rfl, rfl⟩
    have hup : (GPTPretrain.save_model pst fs (some p)).2.1 p =
        some (CkFile.pre
          { model_state_dict := pst.model.state_dict
            optimizer_state_dict := pst.optState
            epoch := pst.epoch }) := FS.update_self fs p _
    unfold GPTPretrain.load_model GPTPretrain.loadModelInner
    dsimp only
    rw [hup]
    dsimp only
    rw [hld]
    rfl
  · obtain ⟨⟨g1, g2, g3⟩, g4⟩ := hfine
    have hs1 : gst2.model.pretrained_model.embedding_layer.length =
        (gst.model.state_dict).pretrainedSD.embeddingV.length := by
      simp [GPTFineTuneParams.state_dict, GPTModelParams.state_dict, tensorValues, g1]
    have hs2 : gst2.model.pretrained_model.decoder.blocks.length =
        (gst.model.state_dict).pretrainedSD.blocksV.length := by
      simp [GPTFineTuneParams.state_dict, GPTModelParams.state_dict, tensorValues, g2]
    have hs3 : gst2.model.pretrained_model.decoder.linear.length =
        (gst.model.state_dict).pretrainedSD.linearV.length := by
      simp [GPTFineTuneParams.state_dict, GPTModelParams.state_dict, tensorValues, g3]
    have hs4 : gst2.model.classifier.length = (gst.model.state_dict).classifierV.length := by
      simp [GPTFineTuneParams.state_dict, tensorValues, g4]
    obtain ⟨m2, hld, hsd⟩ :=
      load_state_dict_fine_exists gst2.model gst.model.state_dict hs1 hs2 hs3 hs4
    refine Exists.intro
      { gst2 with
        model := GPT.freeze_backbone m2
        optState := gst.optState
        epoch := gst.epoch
        training := true
        checkpoint := some p }
      ⟨?_, ?_, rfl, rfl⟩
    · have hup : (GPT.save_model gst fs (some p)).2.1 p =
          some (CkFile.fine
            { model_state_dict := gst.model.state_dict
              optimizer_state_dict := gst.optState
              epoch := gst.epoch }) := FS.update_self fs p _
      unfold GPT.load_model GPT.loadModelInner
      dsimp only
      rw [hup]
      dsimp only
      rw [hld]
      rfl
    · rw [freeze_backbone_state_dict]
      exact hsd

/-- Witness for C4 at concrete trainers of matching topology. -/
theorem spec_C4_witness :
    (pst0.model.same_shape pst0.model ∧ st0.model.same_shape st0.model) ∧
    ((∃ st3, GPTPretrain.load_model pst0
        ((GPTPretrain.save_model pst0 fsEmpty (some preName)).2.1) (some preName) =
          Except.ok (st3, []) ∧
      st3.model.state_dict = pst0.model.state_dict ∧
      st3.optState = pst0.optState ∧ st3.epoch = pst0.epoch) ∧
    (∃ st3, GPT.load_model st0
        ((GPT.save_model st0 fsEmpty (some preName)).2.1) (some preName) =
          Except.ok (st3, []) ∧
      st3.model.state_dict = st0.model.state_dict ∧
      st3.optState = st0.optState ∧ st3.epoch = st0.epoch)) :=
  ⟨⟨⟨rfl, rfl, rfl⟩, ⟨⟨rfl, rfl, rfl⟩, rfl⟩⟩,
   spec_C4 pst0 pst0 st0 st0 fsEmpty preName ⟨rfl, rfl, rfl⟩ ⟨⟨rfl, rfl, rfl⟩, rfl⟩⟩

/-- C5 (code evaluation at the failing input): after a successful
`load_pretrained_model`, the `training` flag is still false, so a subsequent
parameterless `fit` attempts the backbone load again and crashes. -/
theorem spec_C5_eval :
    (GPT.load_pretrained_model st0 fs0 (some preName)).map (fun r => r.1.training) =
      Except.ok false ∧
    (GPT.load_pretrained_model st0 fs0 (some preName)).bind
        (fun r => GPT.fit_setup r.1 fs0 none) =
      Except.error errLoadNonePath := by
  constructor <;> rfl

/-- C6 counterexample: `GPT.load_pretrained_model` on a missing file raises
`FileNotFoundError` instead of continuing. -/
theorem spec_C6_cex :
    GPT.load_pretrained_model st0 fsEmpty (some missingName) =
      Except.error errFileNotFound ∧
    ∀ r, GPT.load_pretrained_model st0 fsEmpty (some missingName) ≠ Except.ok r := by
  constructor
  · rfl
  · intro r h
    rw [show GPT.load_pretrained_model st0 fsEmpty (some missingName) =
        Except.error errFileNotFound from rfl] at h
    exact absurd h (by simp)

/-- C6 amended: on a missing file, `GPTPretrain.load_model` and
`GPT.load_model` do not raise and leave model parameters, optimizer state and
epoch unchanged, but `GPT.load_pretrained_model` raises `FileNotFoundError`. -/
theorem spec_C6_amended (pst : PretrainState) (gst : GPTState) (fs : FS) (p : String)
    (h : fs p = none) :
    GPTPretrain.load_model pst fs (some p) =
      Except.ok ({ pst with checkpoint := some p }, []) ∧
    GPT.load_model gst fs (some p) =
      Except.ok ({ gst with checkpoint := some p }, []) ∧
    GPT.load_pretrained_model gst fs (some p) = Except.error errFileNotFound := by
  refine ⟨?_, ?_, ?_⟩
  · unfold GPTPretrain.load_model GPTPretrain.loadModelInner
    dsimp only
    rw [h]
    rfl
  · unfold GPT.load_model GPT.loadModelInner
    dsimp only
    rw [h]
    rfl
  · unfold GPT.load_pretrained_model
    dsimp only
    rw [h]

/-- Witness for C6 (amended) at a concrete empty filesystem. -/
theorem spec_C6_amended_witness :
    fsEmpty missingName = none ∧
    (GPTPretrain.load_model pst0 fsEmpty (some missingName) =
        Except.ok ({ pst0 with checkpoint := some missingName }, []) ∧
      GPT.load_model st0 fsEmpty (some missingName) =
        Except.ok ({ st0 with checkpoint := some missingName }, []) ∧
      GPT.load_pretrained_model st0 fsEmpty (some missingName) =
        Except.error errFileNotFound) :=
  ⟨rfl, spec_C6_amended pst0 st0 fsEmpty missingName rfl⟩

/-- C7: `GPT.fit` with no configured checkpoint and no `pretrained_path`
raises before reaching the training loop. -/
theorem spec_C7 (st : GPTState) (fs : FS) (h1 : st.checkpoint = none)
    (h2 : st.training = false) :
    GPT.fit_setup st fs none = Except.error errLoadNonePath := by
  obtain ⟨mo, okind, ost, ep, ck, tr⟩ := st
  dsimp only at h1 h2
  subst h1
  subst h2
  rfl

/-- Witness for C7 at a fresh trainer. -/
theorem spec_C7_witness :
    (st0.checkpoint = none ∧ st0.training = false) ∧
    GPT.fit_setup st0 fsEmpty none = Except.error errLoadNonePath :=
  ⟨⟨rfl, rfl⟩, spec_C7 st0 fsEmpty rfl rfl⟩

/-- C8 counterexample: with no path and no configured checkpoint, the GPT
save and load are silent no-ops - the "Checkpoint not found" report required
by the claim is never emitted. -/
theorem spec_C8_cex :
    (GPT.save_model st0 fsEmpty none).2.2 = [] ∧
    msgCheckpointNotFound ∉ (GPT.save_model st0 fsEmpty none).2.2 ∧
    GPT.load_model st0 fsEmpty none = Except.ok (st0, []) := by
  refine ⟨rfl, ?_, rfl⟩
  intro hmem
  rw [show (GPT.save_model st0 fsEmpty none).2.2 = ([] : List String) from rfl] at hmem
  exact absurd hmem (List.not_mem_nil _)

/-- C8 amended: `GPT.save_model` and `GPT.load_model` mirror the GPTPretrain
path-override semantics, except that with no path and no configured
checkpoint they are silent no-ops (no "Checkpoint not found" report); only
the `GPTPretrain` versions print that message. -/
theorem spec_C8_amended (gst : GPTState) (pst : PretrainState) (fs : FS) (p : String) :
    ((GPT.save_model gst fs (some p)).1.checkpoint = some p ∧
      (GPT.save_model gst fs (some p)).2.1 p = some (CkFile.fine
        { model_state_dict := gst.model.state_dict
          optimizer_state_dict := gst.optState
          epoch := gst.epoch })) ∧
    (∀ c, gst.checkpoint = some c →
      (GPT.save_model gst fs none).2.1 c = some (CkFile.fine
        { model_state_dict := gst.model.state_dict
          optimizer_state_dict := gst.optState
          epoch := gst.epoch }) ∧
      (GPT.save_model gst fs none).1 = gst) ∧
    (gst.checkpoint = none → GPT.save_model gst fs none = (gst, fs, [])) ∧
    (∀ st2 ms, GPT.load_model gst fs (some p) = Except.ok (st2, ms) →
      st2.checkpoint = some p) ∧
    (∀ c, gst.checkpoint = some c →
      GPT.load_model gst fs none = (GPT.loadModelInner gst fs c).map (fun s => (s, []))) ∧
    (gst.checkpoint = none → GPT.load_model gst fs none = Except.ok (gst, [])) ∧
    (∀ c, pst.checkpoint = some c →
      GPTPretrain.load_model pst fs none =
        (GPTPretrain.loadModelInner pst fs c).map (fun s => (s, []))) ∧
    (pst.checkpoint = none →
      GPTPretrain.save_model pst fs none = (pst, fs, [msgCheckpointNotFound])) ∧
    (pst.checkpoint = none →
      GPTPretrain.load_model pst fs none = Except.ok (pst, [msgCheckpointNotFound])) := by
  refine ⟨⟨rfl, FS.update_self fs p _⟩, ?_, ?_, ?_, ?_, ?_, ?_, ?_, ?_⟩
  · intro c hc
    unfold GPT.save_model
    rw [hc]
    exact ⟨FS.update_self fs c _, rfl⟩
  · intro h
    unfold GPT.save_model
    rw [h]
  · intro st2 ms h
    unfold GPT.load_model at h
    dsimp only at h
    obtain ⟨s, hs, hpair⟩ := except_map_ok h
    cases hpair
    rfl
  · intro c hc
    unfold GPT.load_model
    rw [hc]
  · intro h
    unfold GPT.load_model
    rw [h]
  · intro c hc
    unfold GPTPretrain.load_model
    dsimp only
    rw [hc]
  · intro h
    unfold GPTPretrain.save_model
    dsimp only
    rw [h]
  · intro h
    unfold GPTPretrain.load_model
    dsimp only
    rw [h]

/-- Witness for C8 (amended) at concrete trainers with and without a
configured checkpoint path. -/
theorem spec_C8_amended_witness :
    ((GPT.save_model st0 fsEmpty (some preName)).1.checkpoint = some preName) ∧
    (gstCk.checkpoint = some fineName ∧ (GPT.save_model gstCk fsEmpty none).1 = gstCk) ∧
    (st0.checkpoint = none ∧ GPT.save_model st0 fsEmpty none = (st0, fsEmpty, [])) ∧
    (gstCk.checkpoint = some fineName ∧
      GPT.load_model gstCk fsEmpty none =
        (GPT.loadModelInner gstCk fsEmpty fineName).map (fun s => (s, []))) ∧
    (pstCk.checkpoint = some fineName ∧
      GPTPretrain.load_model pstCk fsEmpty none =
        (GPTPretrain.loadModelInner pstCk fsEmpty fineName).map (fun s => (s, []))) ∧
    (pst0.checkpoint = none ∧
      GPTPretrain.save_model pst0 fsEmpty none = (pst0, fsEmpty, [msgCheckpointNotFound])) :=
  ⟨(spec_C8_amended st0 pst0 fsEmpty preName).1.1,
   ⟨rfl, ((spec_C8_amended gstCk pst0 fsEmpty preName).2.1 fineName rfl).2⟩,
   ⟨rfl, (spec_C8_amended st0 pst0 fsEmpty preName).2.2.1 rfl⟩,
   ⟨rfl, (spec_C8_amended gstCk pstCk fsEmpty preName).2.2.2.2.1 fineName rfl⟩,
   ⟨rfl, (spec_C8_amended gstCk pstCk fsEmpty preName).2.2.2.2.2.2.1 fineName rfl⟩,
   ⟨rfl, (spec_C8_amended st0 pst0 fsEmpty preName).2.2.2.2.2.2.2.1 rfl⟩⟩
